import Mathlib

/-!
Shallow embedding of the order-placement and cart-pricing workflow of the
e-commerce backend (models: `productModel.js`, `cartModel.js`,
`couponModel.js`, `orderModel.js`; services: `couponService.js` cart
operations, and the order service `createCashOrder` / order read and
transition handlers / `createCardOrder`).

JavaScript numbers are modelled as `Option ℚ`: `some q` is an ordinary
number, `none` stands for `undefined`/`NaN` (both are non-numeric values
for which every `<` comparison yields `false` and which propagate through
arithmetic).  Mongoose documents hydrate only the paths declared in their
schema: reading any other path yields `undefined`.
-/

/-- A JavaScript numeric value: `some q` an actual number, `none` for
`undefined`/`NaN`. -/
abbrev JVal : Type := Option ℚ

/-- Build a `JVal` from a rational. -/
def JVal.num (q : ℚ) : JVal := some q

/-- JS `+` : any non-numeric operand poisons the result (NaN). -/
def jAdd (a b : JVal) : JVal :=
  match a, b with
  | some x, some y => some (x + y)
  | _, _ => none

/-- JS `*`. -/
def jMul (a b : JVal) : JVal :=
  match a, b with
  | some x, some y => some (x * y)
  | _, _ => none

/-- JS `-`. -/
def jSub (a b : JVal) : JVal :=
  match a, b with
  | some x, some y => some (x - y)
  | _, _ => none

/-- JS `<` : comparisons involving `undefined`/`NaN` are `false`. -/
def jLt (a b : JVal) : Bool :=
  match a, b with
  | some x, some y => decide (x < y)
  | _, _ => false

/-- JS `<=` : comparisons involving `undefined`/`NaN` are `false`. -/
def jLe (a b : JVal) : Bool :=
  match a, b with
  | some x, some y => decide (x ≤ y)
  | _, _ => false

/-- JS `Number.isInteger` (`false` on `NaN`/`undefined`). -/
def jIsInteger (a : JVal) : Bool :=
  match a with
  | some x => decide (x.den = 1)
  | none => false

/-- JS `Math.max(0, x)` (NaN in, NaN out). -/
def jMax0 (a : JVal) : JVal :=
  match a with
  | some x => some (max 0 x)
  | none => none

/-- JS `Number.isNaN` on a `JVal`. -/
def jIsNaN (a : JVal) : Bool :=
  match a with
  | some _ => false
  | none => true

/-- JS division by the literal `100`. -/
def jDiv100 (a : JVal) : JVal :=
  match a with
  | some x => some (x / 100)
  | none => none

/-- Errors of the form `ApiError(message, statusCode)` from `utils/apiError.js` as used by the
services: every failure carries a message string and an HTTP status. -/
structure ApiError where
  msg : String
  status : ℕ
deriving DecidableEq, Repr

/-! ### Product model (`models/productModel.js`)

The product schema declares the paths below — note that it declares **no**
`quantity` path.  A mongoose document exposes only schema paths; any field
of the raw stored document outside the schema is invisible, so reading
`product.quantity` on a hydrated product yields `undefined`. -/

/-- The paths declared by `productSchema` (top-level fields of
`models/productModel.js`). -/
def productSchemaPaths : List String :=
  ["title", "slug", "description", "sold", "price", "priceAfterDiscount",
   "colors", "imageCover", "images", "category", "brand", "ratingsAverage",
   "views", "viewedBy"]

/-- A product as stored in the database: its id, its title, and its
numeric attributes as a raw field map (the raw document may well contain
fields, such as `quantity`, that the schema does not declare). -/
structure StoredProduct where
  id : String
  title : String
  nums : List (String × ℚ)
deriving DecidableEq, Repr

/-- Reading a numeric path off a hydrated product document: only schema
paths are exposed; any other path — in particular `quantity` — reads as
`undefined`. -/
def prodNum (p : StoredProduct) (path : String) : JVal :=
  if productSchemaPaths.contains path then
    (p.nums.find? (fun kv => kv.1 == path)).map (·.2)
  else
    none

/-- Lookup `Product.findById` over the catalog store: first product whose id
matches. -/
def productFindById (store : List StoredProduct) (pid : String) :
    Option StoredProduct :=
  store.find? (fun p => p.id == pid)

/-! ### Cart model (`models/cartModel.js`) -/

/-- A cart line item: subdocument id, product reference, chosen color,
price snapshot and quantity. -/
structure CartItem where
  itemId : String
  product : String
  color : Option String
  price : JVal
  quantity : JVal
deriving DecidableEq, Repr

/-- A user's cart with its cached totals. -/
structure Cart where
  user : String
  cartItems : List CartItem
  totalCartPrice : JVal
  totalPriceAfterDiscount : JVal
deriving DecidableEq, Repr

/-- The helper `calcTotalCartPrice` (couponService.js): recomputes
`totalCartPrice = Σ quantity × price` over the items and clears
`totalPriceAfterDiscount` (sets it to `undefined`). -/
def calcTotalCartPrice (c : Cart) : Cart :=
  let totalPrice :=
    c.cartItems.foldl (fun acc item => jAdd acc (jMul item.quantity item.price))
      (JVal.num 0)
  { c with totalCartPrice := totalPrice, totalPriceAfterDiscount := none }

/-- The sum the invariant talks about: `Σ quantity × price` over items,
folded exactly as the JS `forEach` accumulation does. -/
def cartItemsSum (items : List CartItem) : JVal :=
  items.foldl (fun acc item => jAdd acc (jMul item.quantity item.price))
    (JVal.num 0)

/-! ### Cart service (`couponService.js`) -/

/-- Handler `addProductToCart` — body `{productId, color, quantity = 1}`; the
caller's existing cart is `cart?` (`Cart.findOne({user})`), the catalog is
`store`.  Returns the saved cart, or an `ApiError` in which case the cart
document is untouched (the handler returns before any mutation is saved).
`freshItemId` is the subdocument id mongoose mints when a new line is
pushed. -/
def addProductToCart (store : List StoredProduct) (userId : String)
    (cart? : Option Cart) (productId : String) (color : Option String)
    (quantity : JVal) (freshItemId : String) : Except ApiError Cart :=
  match productFindById store productId with
  | none => .error { msg := "Product not found", status := 404 }
  | some product =>
    -- Validate stock: `if (product.quantity < quantity)`
    if jLt (prodNum product "quantity") quantity then
      .error { msg := "Insufficient stock", status := 400 }
    -- Validate quantity: `if (!Number.isInteger(quantity) || quantity < 1)`
    else if !jIsInteger quantity || jLt quantity (JVal.num 1) then
      .error { msg := "Quantity must be a positive integer", status := 400 }
    else
      let cart : Cart :=
        match cart? with
        | none =>
            { user := userId
              cartItems := [{ itemId := freshItemId, product := productId,
                              color := color, price := prodNum product "price",
                              quantity := quantity }]
              totalCartPrice := none
              totalPriceAfterDiscount := none }
        | some cart =>
            match cart.cartItems.findIdx?
                (fun item => item.product == productId && item.color == color) with
            | some i =>
                let items := cart.cartItems.modify
                  (fun item => { item with quantity := quantity }) i
                { cart with cartItems := items }
            | none =>
                let newItem : CartItem :=
                  { itemId := freshItemId, product := productId, color := color,
                    price := prodNum product "price", quantity := quantity }
                { cart with cartItems := cart.cartItems ++ [newItem] }
      .ok (calcTotalCartPrice cart)

/-- Handler `removeSpecificCartItem` — `$pull`s the line with the given subdocument
id, then recomputes totals and saves. -/
def removeSpecificCartItem (cart? : Option Cart) (itemId : String) :
    Except ApiError Cart :=
  match cart? with
  | none => .error { msg := "Cart not found", status := 404 }
  | some cart =>
    let items := cart.cartItems.filter (fun item => !(item.itemId == itemId))
    .ok (calcTotalCartPrice { cart with cartItems := items })

/-- Handler `updateCartItemQuantity` — validates the quantity, finds the line by
subdocument id, re-checks stock against the (schema-hydrated) product, and
overwrites the line's quantity.  When the line's product is absent from
the catalog the JS dereference `product.quantity` throws a `TypeError`
(surfaced by the async handler as a 500). -/
def updateCartItemQuantity (store : List StoredProduct) (cart? : Option Cart)
    (itemId : String) (quantity : JVal) : Except ApiError Cart :=
  if !jIsInteger quantity || jLt quantity (JVal.num 1) then
    .error { msg := "Quantity must be a positive integer", status := 400 }
  else
    match cart? with
    | none => .error { msg := "Cart not found", status := 404 }
    | some cart =>
      match cart.cartItems.find? (fun item => item.itemId == itemId) with
      | some item =>
          match productFindById store item.product with
          | none =>
              .error { msg := "TypeError: Cannot read properties of null", status := 500 }
          | some product =>
            if jLt (prodNum product "quantity") quantity then
              .error { msg := "Insufficient stock", status := 400 }
            else
              let i := cart.cartItems.findIdx (fun it => it.itemId == itemId)
              let items := cart.cartItems.modify (fun it => { it with quantity := quantity }) i
              .ok (calcTotalCartPrice { cart with cartItems := items })
      | none =>
          .error { msg := "Item not found", status := 404 }

/-! ### Coupon model (`models/couponModel.js`)

`expire` is a `Date`.  We model a stored date as `Option (Option ℚ)`:
`none` when the field is absent from the document, `some none` for an
invalid (unparsable) date, `some (some t)` for the timestamp `t`. -/

/-- A stored JavaScript `Date` value. -/
abbrev JDate : Type := Option (Option ℚ)

/-- A coupon document. -/
structure Coupon where
  id : String
  name : String
  expire : JDate
  discount : ℚ
deriving DecidableEq, Repr

/-- The Mongo condition `{ name: n, expire: { $gt: now } }` used by
`applyCoupon`: `$gt` on a date field matches only documents whose `expire`
is an actual date strictly greater than `now` (an absent or invalid expiry
never matches). -/
def couponMatchesActive (c : Coupon) (n : String) (now : ℚ) : Bool :=
  c.name == n &&
    (match c.expire with
     | some (some t) => decide (now < t)
     | _ => false)

/-- Lookup `Coupon.findOne` with conditions `name` and `expire: $gt Date.now()`. -/
def couponFindActive (coupons : List Coupon) (n : String) (now : ℚ) :
    Option Coupon :=
  coupons.find? (fun c => couponMatchesActive c n now)

/-- Lookup `Coupon.findOne` by `name` alone (used by `createCashOrder`). -/
def couponFindByName (coupons : List Coupon) (n : String) : Option Coupon :=
  coupons.find? (fun c => c.name == n)

/-- JS `x.toFixed(2)` (re-cast to a number when mongoose saves it): round
to two decimals.  (IEEE-754 formatting quirks of `toFixed` are abstracted
to exact half-up rounding on rationals.) -/
def jToFixed2 (a : JVal) : JVal :=
  match a with
  | some x => some ((round (x * 100) : ℤ) / 100 : ℚ)
  | none => none

/-- Handler `applyCoupon` (couponService.js, cart route): looks up an unexpired
coupon by name, then writes
`totalPriceAfterDiscount = (totalPrice - totalPrice*discount/100).toFixed(2)`
onto the caller's cart.  On any failure the handler returns before the
cart is read or written. -/
def applyCoupon (coupons : List Coupon) (cart? : Option Cart)
    (couponName : String) (now : ℚ) : Except ApiError Cart :=
  match couponFindActive coupons couponName now with
  | none => .error { msg := "Coupon is invalid or expired", status := 400 }
  | some coupon =>
    match cart? with
    | none => .error { msg := "Cart not found", status := 404 }
    | some cart =>
      let totalPrice := cart.totalCartPrice
      let totalPriceAfterDiscount :=
        jToFixed2 (jSub totalPrice (jDiv100 (jMul totalPrice (JVal.num coupon.discount))))
      .ok { cart with totalPriceAfterDiscount := totalPriceAfterDiscount }

/-- The persistent effect of the `applyCoupon` handler: the stored cart is
replaced only when the handler reaches its `save`; on an error response it
is untouched. -/
def applyCouponHandler (coupons : List Coupon) (cart? : Option Cart)
    (couponName : String) (now : ℚ) : Option Cart × Except ApiError Cart :=
  match applyCoupon coupons cart? couponName now with
  | .ok c => (some c, .ok c)
  | .error e => (cart?, .error e)

/-! ### Order model (`models/orderModel.js`, the canonical schema with
`orderId` and soft deletion)

The mongoose query pipeline is modelled explicitly, because the two
`pre(/^find/)`-hook behaviours at the heart of the soft-delete design
depend on it: a query carries *conditions* (the filter, returned by
`getQuery()`) and *options* (written by `setOptions(...)`), and they are
distinct stores.  The soft-delete hook reads
`this.getQuery().includeDeleted` — i.e. the conditions — and, when that
is not truthy, adds `deleted: { $ne: true }` to the conditions. -/

/-- An order line (`cartItems` subdocument of the order schema). -/
structure OrderLine where
  product : String
  quantity : JVal
  price : JVal
  name : Option String
deriving DecidableEq, Repr

/-- Shipping address of the canonical order schema. -/
structure ShippingAddress where
  alias' : String
  details : String
  phone : String
  city : String
  postalCode : Option String
  email : Option String
deriving DecidableEq, Repr

/-- An order document. -/
structure OrderDoc where
  id : String
  orderId : Option String
  user : Option String
  cartItems : List OrderLine
  shippingAddress : ShippingAddress
  totalBeforeDiscount : JVal
  totalAfterDiscount : JVal
  coupon : Option String
  paymentMethodType : String
  isPaid : Bool
  paidAt : Option ℚ
  isDelivered : Bool
  deliveredAt : Option ℚ
  deleted : Bool
  deletedAt : Option ℚ
deriving DecidableEq, Repr

/-- The filter conditions an order query can carry in this codebase:
equality on `_id`, equality on `orderId`, equality on `deleted`, the
`deleted: { $ne: true }` clause the hook may add, and a possible literal
`includeDeleted` condition field. -/
structure OrderConds where
  idEq : Option String := none
  orderIdEq : Option String := none
  deletedEq : Option Bool := none
  deletedNe : Option Bool := none
  includeDeleted : Option Bool := none
deriving DecidableEq, Repr

/-- Query options (written by `setOptions`, invisible to `getQuery()`). -/
structure OrderOpts where
  includeDeleted : Bool := false
deriving DecidableEq, Repr

/-- An order query: conditions plus options. -/
structure OrderQuery where
  conds : OrderConds
  opts : OrderOpts := {}
deriving DecidableEq, Repr

/-- The call `query.setOptions` with `includeDeleted` — writes the *options*, not the
conditions. -/
def setOptionsIncludeDeleted (q : OrderQuery) (b : Bool) : OrderQuery :=
  { q with opts := { q.opts with includeDeleted := b } }

/-- The soft-delete `pre(/^find/)` hook of `orderModel.js`: it inspects
`this.getQuery().includeDeleted` — the *conditions* — and when that is not
truthy adds `deleted: { $ne: true }` via `this.where(...)`. -/
def preFindHook (q : OrderQuery) : OrderQuery :=
  if q.conds.includeDeleted == some true then q
  else { q with conds := { q.conds with deletedNe := some true } }

/-- Whether a document satisfies the filter conditions.  A literal
`includeDeleted` condition would be matched against the (nonexistent)
document field `includeDeleted`, which no order document has, so such a
condition matches nothing. -/
def orderMatches (c : OrderConds) (o : OrderDoc) : Bool :=
  (match c.idEq with | some i => o.id == i | none => true) &&
  (match c.orderIdEq with | some s => o.orderId == some s | none => true) &&
  (match c.deletedEq with | some b => o.deleted == b | none => true) &&
  (match c.deletedNe with | some b => !(o.deleted == b) | none => true) &&
  (match c.includeDeleted with | some _ => false | none => true)

/-- Run a `find` query: the hook fires, then the store is filtered. -/
def orderFind (db : List OrderDoc) (q : OrderQuery) : List OrderDoc :=
  db.filter (orderMatches (preFindHook q).conds)

/-- Run a `findOne`/`findById` query: the hook fires, then the first
matching document (if any) is returned. -/
def orderFindOne (db : List OrderDoc) (q : OrderQuery) : Option OrderDoc :=
  db.find? (fun o => orderMatches (preFindHook q).conds o)

/-- Query `Order.findById(id)` with no options. -/
def orderFindById (db : List OrderDoc) (id : String) : Option OrderDoc :=
  orderFindOne db { conds := { idEq := some id } }

/-- Query `Order.findById(id).setOptions` with `includeDeleted` as issued by
`findSpecificOrder`. -/
def orderFindByIdWithOpts (db : List OrderDoc) (id : String)
    (includeDeleted : Bool) : Option OrderDoc :=
  orderFindOne db
    (setOptionsIncludeDeleted { conds := { idEq := some id } } includeDeleted)

/-- Query `mongoose.models.Order.findOne` on `orderId` as issued by the
orderId-uniqueness probe of the `pre('validate')` hook. -/
def orderFindOneByOrderId (db : List OrderDoc) (oid : String) :
    Option OrderDoc :=
  orderFindOne db { conds := { orderIdEq := some oid } }

/-! ### Order id generation (`orderSchema.pre('validate')`) and `Order.create`

`generateOrderId` draws 6 random alphanumeric characters; we model the
random draw as a candidate stream `gen : ℕ → String` (attempt `r` yields
`gen r`).  The uniqueness probe is
`mongoose.models.Order.findOne({ orderId: id })` — a `find` query, so the
soft-delete `pre(/^find/)` hook fires on it.  The schema additionally
declares `orderId` with `unique: true`, a storage-level index over *all*
documents, so an insert whose `orderId` collides with any existing
document (soft-deleted or not) fails with a duplicate-key error. -/

/-- The retry loop of the `pre('validate')` hook: up to `fuel` (= 5)
attempts, each generating a candidate and probing for an existing order
with that `orderId`; returns the first candidate the probe reports free,
or `none` when all attempts collide. -/
def tryGenerateOrderId (db : List OrderDoc) (gen : ℕ → String) :
    ℕ → ℕ → Option String
  | _, 0 => none
  | r, fuel + 1 =>
      let id := gen r
      match orderFindOneByOrderId db id with
      | some _ => tryGenerateOrderId db gen (r + 1) fuel
      | none => some id

/-- The `pre('validate')` hook on a new document without an `orderId`:
run the retry loop with `maxRetries = 5`. -/
def preValidateOrderId (db : List OrderDoc) (gen : ℕ → String) :
    Except ApiError String :=
  match tryGenerateOrderId db gen 0 5 with
  | some id => .ok id
  | none =>
      .error { msg := "Failed to generate a unique orderId after maximum retries",
               status := 500 }

/-- The data `createCashOrder` passes to `Order.create` (before the
pre-validate hook assigns `orderId`). -/
structure OrderData where
  user : Option String
  cartItems : List OrderLine
  shippingAddress : ShippingAddress
  totalBeforeDiscount : JVal
  totalAfterDiscount : JVal
  coupon : Option String
  paymentMethodType : String
  isPaid : Bool := false
  paidAt : Option ℚ := none
deriving DecidableEq, Repr

/-- Creation `Order.create(data)`: the pre-validate hook assigns a collision-probed
`orderId`; the insert then goes through the storage layer, whose
`unique: true` index on `orderId` spans every document (deleted or not)
and rejects a duplicate with an `E11000` error.  On success the new
document is appended to the store. -/
def orderCreate (db : List OrderDoc) (gen : ℕ → String) (freshDocId : String)
    (data : OrderData) : Except ApiError (OrderDoc × List OrderDoc) :=
  match preValidateOrderId db gen with
  | .error e => .error e
  | .ok oid =>
  if db.any (fun o => o.orderId == some oid) then
    .error { msg := "E11000 duplicate key error", status := 500 }
  else
  let doc : OrderDoc :=
    { id := freshDocId
      orderId := some oid
      user := data.user
      cartItems := data.cartItems
      shippingAddress := data.shippingAddress
      totalBeforeDiscount := data.totalBeforeDiscount
      totalAfterDiscount := data.totalAfterDiscount
      coupon := data.coupon
      paymentMethodType := data.paymentMethodType
      isPaid := data.isPaid
      paidAt := data.paidAt
      isDelivered := false
      deliveredAt := none
      deleted := false
      deletedAt := none }
  .ok (doc, db ++ [doc])

/-! ### Order read and transition handlers (order service, `part_003`) -/

/-- Handler `findSpecificOrder`: the override is granted only to admins
(`req.user.role === 'admin' && req.query.includeDeleted === 'true'`), and
is handed to the query via `.setOptions({ includeDeleted })`. -/
def findSpecificOrder (db : List OrderDoc) (id : String) (role : String)
    (includeDeletedParam : Bool) : Except ApiError OrderDoc :=
  let includeDeleted := role == "admin" && includeDeletedParam
  match orderFindByIdWithOpts db id includeDeleted with
  | none => .error { msg := "No order found for this id", status := 404 }
  | some o => .ok o

/-- Persisting `save` of a loaded-and-mutated order document: replaces the document
with the matching `_id` in the store. -/
def saveOrder (db : List OrderDoc) (o : OrderDoc) : List OrderDoc :=
  db.map (fun x => if x.id == o.id then o else x)

/-- Handler `updateOrderToPaid`: `findById` (the soft-delete filter applies), then
set `isPaid`/`paidAt` and save.  Returns the (possibly unchanged) store
and the response. -/
def updateOrderToPaid (db : List OrderDoc) (id : String) (now : ℚ) :
    List OrderDoc × Except ApiError OrderDoc :=
  match orderFindById db id with
  | none => (db, .error { msg := "There is no such order with this id", status := 404 })
  | some o =>
      let o' := { o with isPaid := true, paidAt := some now }
      (saveOrder db o', .ok o')

/-- Handler `updateOrderToDelivered`: same shape, setting `isDelivered` and `deliveredAt`. -/
def updateOrderToDelivered (db : List OrderDoc) (id : String) (now : ℚ) :
    List OrderDoc × Except ApiError OrderDoc :=
  match orderFindById db id with
  | none => (db, .error { msg := "There is no such order with this id", status := 404 })
  | some o =>
      let o' := { o with isDelivered := true, deliveredAt := some now }
      (saveOrder db o', .ok o')

/-- Handler `softDeleteOrder`: `findById` (the soft-delete filter applies), then
set `deleted`/`deletedAt` and save. -/
def softDeleteOrder (db : List OrderDoc) (id : String) (now : ℚ) :
    List OrderDoc × Except ApiError OrderDoc :=
  match orderFindById db id with
  | none => (db, .error { msg := "There is no such order with this id", status := 404 })
  | some o =>
      let o' := { o with deleted := true, deletedAt := some now }
      (saveOrder db o', .ok o')

/-! ### `createCashOrder` (order service, `part_003`) -/

/-- JS string truthiness for an optional string field: absent, `undefined`
and `""` are falsy. -/
def strTruthy (s : Option String) : Bool :=
  match s with
  | some s => !(s == "")
  | none => false

/-- One entry of the `products` array: `{ id, quantity = 1, color }` —
`quantity` defaults to `1` when the property is absent. -/
structure ProdInput where
  id : Option String
  quantity : Option JVal := none
  color : Option String := none
deriving DecidableEq

/-- The `products` field of the request body: absent (or otherwise falsy),
present but not an array, or an actual array. -/
inductive ReqProducts where
  | missing
  | nonArray
  | arr (l : List ProdInput)
deriving DecidableEq

/-- The `shippingAddress` object of the request body (fields checked for
truthiness by the handler). -/
structure ShipInput where
  alias' : Option String
  details : Option String
  phone : Option String
  city : Option String
  postalCode : Option String := none
  email : Option String := none
deriving DecidableEq

/-- A `createCashOrder` request body. -/
structure CashReq where
  products : ReqProducts
  shippingAddress : Option ShipInput
  coupon : Option String
deriving DecidableEq

/-- Step 1 of `createCashOrder`: shape validation — products array first,
then the shipping address and its required fields. -/
def cashValidate (req : CashReq) : Except ApiError (List ProdInput × ShipInput) :=
  match req.products with
  | .arr l =>
      if l.isEmpty then
        .error { msg := "Products array is required and cannot be empty", status := 400 }
      else
        match req.shippingAddress with
        | none => .error { msg := "Shipping address is required", status := 400 }
        | some ship =>
          if !(strTruthy ship.alias' && strTruthy ship.details &&
               strTruthy ship.phone && strTruthy ship.city) then
            .error { msg := "Shipping address must include alias, details, phone, and city",
                     status := 400 }
          else
            .ok (l, ship)
  | _ => .error { msg := "Products array is required and cannot be empty", status := 400 }

/-- A validated, priced line produced by step 2. -/
structure PricedLine where
  product : String
  title : String
  color : String
  price : JVal
  quantity : JVal
  total : JVal
deriving DecidableEq

/-- Validation of one `products` entry: id present, quantity a positive
number, product resolvable; prices are read off the hydrated product
(`.select('title price')`). -/
def validateLine (store : List StoredProduct) (input : ProdInput) :
    Except ApiError PricedLine :=
  match input.id with
  | none => .error { msg := "Product must have an _id", status := 400 }
  | some pid =>
    -- `const parsedQuantity = Number(quantity)` with destructuring default 1
    let parsedQuantity : JVal := input.quantity.getD (JVal.num 1)
    if jIsNaN parsedQuantity || jLe parsedQuantity (JVal.num 0) then
      .error { msg := "Invalid quantity for product", status := 400 }
    else
      match productFindById store pid with
      | none => .error { msg := "No product found with this id", status := 404 }
      | some product =>
        .ok { product := pid
              title := product.title
              color := (match input.color with
                        | some c => if c == "" then "N/A" else c
                        | none => "N/A")
              price := prodNum product "price"
              quantity := parsedQuantity
              total := jMul (prodNum product "price") parsedQuantity }

/-- Step 2 over the whole array (`Promise.all`; on failure the handler
rejects with a failing line's error — we take the leftmost). -/
def validateProducts (store : List StoredProduct) :
    List ProdInput → Except ApiError (List PricedLine)
  | [] => .ok []
  | input :: rest =>
      match validateLine store input with
      | .error e => .error e
      | .ok line =>
          match validateProducts store rest with
          | .error e => .error e
          | .ok lines => .ok (line :: lines)

/-- The order lines pushed into `cartItems` from the validated lines. -/
def linesToCartItems (lines : List PricedLine) : List OrderLine :=
  lines.map (fun l =>
    { product := l.product, quantity := l.quantity, price := l.price,
      name := some l.title })

/-- Accumulation `subtotal += item.total` over the validated lines, from 0. -/
def linesSubtotal (lines : List PricedLine) : JVal :=
  lines.foldl (fun acc l => jAdd acc l.total) (JVal.num 0)

/-- The applied-coupon summary of the success response. -/
structure CouponSummary where
  name : String
  discount : JVal
  percentage : ℚ
deriving DecidableEq

/-- Step 3 of `createCashOrder`: resolve the coupon by name and vet it —
absent expiry, unparsable expiry, past expiry, then a discount percentage
outside `[0,100]`, each a 400; otherwise compute
`discountAmount = subtotal*d/100` and
`totalAfterDiscount = max(0, subtotal - discountAmount)`.
Note `!couponDoc.expire` is a truthiness test: an *Invalid Date* object is
truthy and only fails the subsequent `Number.isNaN(getTime())` check. -/
def cashCouponStep (coupons : List Coupon) (couponName : String)
    (totalBeforeDiscount : JVal) (now : ℚ) :
    Except ApiError (JVal × Option String × Option CouponSummary) :=
  match couponFindByName coupons couponName with
  | none => .error { msg := "Invalid coupon name", status := 400 }
  | some couponDoc =>
    match couponDoc.expire with
    | none => .error { msg := "Coupon has no expiration date", status := 400 }
    | some none => .error { msg := "Coupon has an invalid expiration date", status := 400 }
    | some (some t) =>
        if t < now then
          .error { msg := "Coupon has expired", status := 400 }
        else
          let discountPercentage := couponDoc.discount
          if discountPercentage < 0 || discountPercentage > 100 then
            .error { msg := "Invalid discount percentage", status := 400 }
          else
            let discountAmount := jDiv100 (jMul totalBeforeDiscount (JVal.num discountPercentage))
            let totalAfterDiscount := jMax0 (jSub totalBeforeDiscount discountAmount)
            .ok (totalAfterDiscount, some couponDoc.id,
                 some { name := couponDoc.name, discount := discountAmount,
                        percentage := discountPercentage })

/-- Mongo `$inc` of a numeric field on a stored (raw) document; an absent field
is created holding the increment. -/
def storedInc (p : StoredProduct) (field : String) (d : ℚ) : StoredProduct :=
  if (p.nums.find? (fun kv => kv.1 == field)).isSome then
    { p with nums := p.nums.map (fun kv => if kv.1 == field then (kv.1, kv.2 + d) else kv) }
  else
    { p with nums := p.nums ++ [(field, d)] }

/-- Step 5 of `createCashOrder`: build the `bulkWrite` options — each op
re-validates `Number(item.quantity)` and increments `sold` — then apply
them.  (The per-item `updateOrderCount` call goes to an external counters
service outside this core.) -/
def cashBulkOps : List OrderLine → Except ApiError (List (String × ℚ))
  | [] => .ok []
  | item :: rest =>
      match item.quantity with
      | some v =>
          if v ≤ 0 then
            .error { msg := "Invalid quantity for product", status := 400 }
          else
            match cashBulkOps rest with
            | .error e => .error e
            | .ok ops => .ok ((item.product, v) :: ops)
      | none => .error { msg := "Invalid quantity for product", status := 400 }

/-- Apply the built `bulkWrite` options to the catalog. -/
def cashBulkSold (products : List StoredProduct) (items : List OrderLine) :
    Except ApiError (List StoredProduct) :=
  match cashBulkOps items with
  | .error e => .error e
  | .ok ops =>
      .ok (ops.foldl (fun ps op =>
        ps.map (fun p => if p.id == op.1 then storedInc p "sold" op.2 else p)) products)

/-- The persistent state `createCashOrder` touches. -/
structure OrderState where
  products : List StoredProduct
  coupons : List Coupon
  orders : List OrderDoc
deriving DecidableEq

/-- The success response of `createCashOrder`. -/
structure CashResp where
  order : OrderDoc
  totalBeforeDiscount : JVal
  totalAfterDiscount : JVal
  coupon : Option CouponSummary
deriving DecidableEq

/-- Handler `createCashOrder`: validate shape, validate and price every line,
vet and apply the coupon, persist the order (freshly sequenced `orderId`,
snapshotted name/price per line), then increment the products' `sold`
counters.  Every failure before `Order.create` returns the state
untouched; the two failure points after it (`!order.orderId`, the bulk
quantity re-check) leave the already-persisted order in place.
(The confirmation e-mails are external side effects.) -/
def createCashOrder (st : OrderState) (req : CashReq) (userId : Option String)
    (now : ℚ) (gen : ℕ → String) (freshDocId : String) :
    OrderState × Except ApiError CashResp :=
  match cashValidate req with
  | .error e => (st, .error e)
  | .ok (products, ship) =>
    match validateProducts st.products products with
    | .error e => (st, .error e)
    | .ok lines =>
      let cartItems := linesToCartItems lines
      let subtotal := linesSubtotal lines
      let totalBeforeDiscount := subtotal
      let couponOutcome :=
        match req.coupon with
        | some couponName => cashCouponStep st.coupons couponName totalBeforeDiscount now
        | none => .ok (totalBeforeDiscount, none, none)
      match couponOutcome with
      | .error e => (st, .error e)
      | .ok (totalAfterDiscount, couponId, couponSummary) =>
        let data : OrderData :=
          { user := userId
            cartItems := cartItems
            shippingAddress :=
              { alias' := ship.alias'.getD "", details := ship.details.getD "",
                phone := ship.phone.getD "", city := ship.city.getD "",
                postalCode := ship.postalCode, email := ship.email }
            totalBeforeDiscount := totalBeforeDiscount
            totalAfterDiscount := totalAfterDiscount
            coupon := couponId
            paymentMethodType := "cash" }
        match orderCreate st.orders gen freshDocId data with
        | .error e => (st, .error e)
        | .ok (order, orders') =>
          if order.orderId.isNone then
            ({ st with orders := orders' },
             .error { msg := "Failed to generate orderId for the order", status := 500 })
          else
            match cashBulkSold st.products cartItems with
            | .error e => ({ st with orders := orders' }, .error e)
            | .ok products' =>
                ({ st with orders := orders', products := products' },
                 .ok { order := order
                       totalBeforeDiscount := totalBeforeDiscount
                       totalAfterDiscount := totalAfterDiscount
                       coupon := couponSummary })

/-! ### `createCardOrder` (order service, `part_003`)

Invoked from the Stripe webhook on a `checkout.session.completed` event.
The correlation id is `session.client_reference_id`, which is the cart's
`_id` as placed there by `checkoutSession`.  `Order.create` is called
with `totalOrderPrice` and `paymentMethod` — neither is a path of the
order schema, so both are discarded by strict mode, and
`paymentMethodType` takes its schema default `'cash'`. -/

/-- A user document (only the fields this flow reads). -/
structure UserDoc where
  id : String
  email : String
deriving DecidableEq

/-- The slice of a Stripe checkout session the handler reads. -/
structure StripeSession where
  client_reference_id : String
  metadata : ShippingAddress
  amount_total : ℚ
  customer_email : Option String
deriving DecidableEq

/-- The persistent state the card flow touches. -/
structure CardState where
  carts : List (String × Cart)
  users : List UserDoc
  orders : List OrderDoc
  products : List StoredProduct
deriving DecidableEq

/-- A cart line carried into an order: the order schema's `cartItems`
subdocument has `product`, `quantity`, `price`, `name` — the cart line's
`color` is discarded and no `name` is present. -/
def cartItemToOrderLine (it : CartItem) : OrderLine :=
  { product := it.product, quantity := it.quantity, price := it.price,
    name := none }

/-- The `bulkWrite` of the card flow:
`$inc: { quantity: -item.quantity, sold: +item.quantity }` per cart line.
A non-numeric line quantity fails the write (cast error) after the order
was already persisted. -/
def cardBulkOps : List CartItem → Except ApiError (List (String × ℚ))
  | [] => .ok []
  | item :: rest =>
      match item.quantity with
      | some v =>
          match cardBulkOps rest with
          | .error e => .error e
          | .ok ops => .ok ((item.product, v) :: ops)
      | none => .error { msg := "Cast to Number failed", status := 500 }

/-- Apply the built stock `bulkWrite` options to the catalog. -/
def cardBulkStock (products : List StoredProduct) (items : List CartItem) :
    Except ApiError (List StoredProduct) :=
  match cardBulkOps items with
  | .error e => .error e
  | .ok ops =>
      .ok (ops.foldl (fun ps op =>
        ps.map (fun p =>
          if p.id == op.1 then storedInc (storedInc p "quantity" (-op.2)) "sold" op.2
          else p)) products)

/-- Handler `createCardOrder(session)`: resolve the cart by the correlation id
(throwing when it no longer exists), optionally resolve the user by the
session e-mail, create the order pre-marked paid, apply the stock
`bulkWrite`, and delete the consumed cart. -/
def createCardOrder (st : CardState) (s : StripeSession) (now : ℚ)
    (gen : ℕ → String) (freshDocId : String) :
    CardState × Except ApiError OrderDoc :=
  let cartId := s.client_reference_id
  match st.carts.find? (fun kv => kv.1 == cartId) with
  | none => (st, .error { msg := "Cart not found with this id", status := 500 })
  | some (_, cart) =>
    let user : Option UserDoc :=
      match s.customer_email with
      | some email =>
          if email == "" then none
          else st.users.find? (fun u => u.email == email)
      | none => none
    let data : OrderData :=
      { user := user.map (·.id)
        cartItems := cart.cartItems.map cartItemToOrderLine
        shippingAddress := s.metadata
        -- `totalOrderPrice` is not a schema path: the totals stay unset.
        totalBeforeDiscount := none
        totalAfterDiscount := none
        coupon := none
        -- `paymentMethod` is not a schema path: the schema default applies.
        paymentMethodType := "cash"
        isPaid := true
        paidAt := some now }
    match orderCreate st.orders gen freshDocId data with
    | .error e => (st, .error e)
    | .ok (order, orders') =>
      match cardBulkStock st.products cart.cartItems with
      | .error e => ({ st with orders := orders' }, .error e)
      | .ok products' =>
          ({ st with
              orders := orders'
              products := products'
              carts := st.carts.filter (fun kv => !(kv.1 == cartId)) },
           .ok order)

/-! ### Derived quantities and sample data used by the verification -/

/-- Sum `Σ price × quantity` over order lines, folded as the services fold
their accumulators. -/
def orderLinesSum (items : List OrderLine) : JVal :=
  items.foldl (fun acc it => jAdd acc (jMul it.price it.quantity)) (JVal.num 0)

/-- Predicate for a coupon whose expiry is absent, malformed (an invalid
date), or strictly in the past at time `now`. -/
def couponBadExpiry (c : Coupon) (now : ℚ) : Bool :=
  match c.expire with
  | some (some t) => decide (t < now)
  | _ => true

/-- A well-formed shipping address used by the concrete scenarios. -/
def shipA4 : ShippingAddress :=
  { alias' := "Home", details := "12 St", phone := "0100", city := "Cairo",
    postalCode := none, email := none }

/-- A soft-deleted order holding orderId `AAAAAA` (order-id reuse scenario). -/
def c1Order : OrderDoc :=
  { id := "o5", orderId := some "AAAAAA", user := none, cartItems := [],
    shippingAddress := shipA4, totalBeforeDiscount := some 10,
    totalAfterDiscount := some 10, coupon := none, paymentMethodType := "cash",
    isPaid := true, paidAt := some 1, isDelivered := false, deliveredAt := none,
    deleted := true, deletedAt := some 2 }

/-- A catalog with one product whose raw document says `quantity = 0`
(out of stock) — the schema exposes no such path. -/
def c2Store : List StoredProduct :=
  [{ id := "p1", title := "Cake", nums := [("price", 10), ("quantity", 0)] }]

/-- A soft-deleted order used for the read-override scenario. -/
def c3Order : OrderDoc :=
  { id := "o9", orderId := some "ZZ99XX", user := none, cartItems := [],
    shippingAddress := shipA4, totalBeforeDiscount := some 10,
    totalAfterDiscount := some 10, coupon := none, paymentMethodType := "cash",
    isPaid := false, paidAt := none, isDelivered := false, deliveredAt := none,
    deleted := true, deletedAt := some 7 }

/-- A soft-deleted order used for the repeated-transition scenario. -/
def c10Order : OrderDoc :=
  { id := "o1", orderId := some "AB12CD", user := none, cartItems := [],
    shippingAddress := shipA4, totalBeforeDiscount := some 20,
    totalAfterDiscount := some 20, coupon := none, paymentMethodType := "cash",
    isPaid := false, paidAt := none, isDelivered := false, deliveredAt := none,
    deleted := true, deletedAt := some 5 }

/-- A catalog product priced 10 with some units already sold. -/
def pW : StoredProduct :=
  { id := "p1", title := "Choco Cake", nums := [("price", 10), ("sold", 3)] }

/-- A catalog product priced 10 with no further attributes. -/
def pW7 : StoredProduct := { id := "p1", title := "Cake", nums := [("price", 10)] }

/-- A second catalog product priced 5. -/
def pX7 : StoredProduct := { id := "p2", title := "Tart", nums := [("price", 5)] }

/-- A syntactically complete shipping-address input. -/
def shipIn : ShipInput :=
  { alias' := some "Home", details := some "12 St", phone := some "0100",
    city := some "Cairo" }

/-- A coupon of 20 percent, valid until time 100. -/
def valid20 : Coupon :=
  { id := "cp1", name := "SAVE20", expire := some (some 100), discount := 20 }

/-- A coupon whose discount value 150 lies outside the percentage range. -/
def bigDisc : Coupon :=
  { id := "cp3", name := "MEGA", expire := some (some 100), discount := 150 }

/-- A coupon already expired at time 50. -/
def expiredC : Coupon :=
  { id := "cp2", name := "OLD", expire := some (some 5), discount := 10 }

/-- The order-state of the concrete cash-order scenarios. -/
def st4 : OrderState :=
  { products := [pW], coupons := [valid20, bigDisc], orders := [] }

/-- A deterministic candidate stream for the order-id generator. -/
def genW : ℕ → String := fun _ => "AAA111"

/-- A cash request for two units of `p1`, no coupon. -/
def reqA : CashReq :=
  { products := .arr [{ id := some "p1", quantity := some (some 2) }],
    shippingAddress := some shipIn, coupon := none }

/-- The same request with the valid 20 percent coupon. -/
def reqC : CashReq := { reqA with coupon := some "SAVE20" }

/-- The same request with the out-of-range coupon. -/
def reqD : CashReq := { reqA with coupon := some "MEGA" }

/-- The order created by the no-coupon scenario (subtotal 20, total 20). -/
def orderA : OrderDoc :=
  { id := "d1", orderId := some "AAA111", user := none,
    cartItems := [{ product := "p1", quantity := some 2, price := some 10,
                    name := some "Choco Cake" }],
    shippingAddress := shipA4, totalBeforeDiscount := some 20,
    totalAfterDiscount := some 20, coupon := none, paymentMethodType := "cash",
    isPaid := false, paidAt := none, isDelivered := false, deliveredAt := none,
    deleted := false, deletedAt := none }

/-- The state after the no-coupon scenario: order persisted, `sold` bumped. -/
def stA : OrderState :=
  { products := [{ id := "p1", title := "Choco Cake",
                   nums := [("price", 10), ("sold", 5)] }],
    coupons := [valid20, bigDisc], orders := [orderA] }

/-- The response of the no-coupon scenario. -/
def respA : CashResp :=
  { order := orderA, totalBeforeDiscount := some 20,
    totalAfterDiscount := some 20, coupon := none }

/-- The order created by the 20-percent-coupon scenario (20 → 16). -/
def orderC : OrderDoc :=
  { id := "d1", orderId := some "AAA111", user := none,
    cartItems := [{ product := "p1", quantity := some 2, price := some 10,
                    name := some "Choco Cake" }],
    shippingAddress := shipA4, totalBeforeDiscount := some 20,
    totalAfterDiscount := some 16, coupon := some "cp1",
    paymentMethodType := "cash",
    isPaid := false, paidAt := none, isDelivered := false, deliveredAt := none,
    deleted := false, deletedAt := none }

/-- The state after the coupon scenario. -/
def stC : OrderState :=
  { products := [{ id := "p1", title := "Choco Cake",
                   nums := [("price", 10), ("sold", 5)] }],
    coupons := [valid20, bigDisc], orders := [orderC] }

/-- The response of the coupon scenario: subtotal 20, discount 4, total 16. -/
def respC : CashResp :=
  { order := orderC, totalBeforeDiscount := some 20,
    totalAfterDiscount := some 16,
    coupon := some { name := "SAVE20", discount := some 4, percentage := 20 } }

/-- The state of the expired-coupon order scenario. -/
def st5 : OrderState := { products := [pW], coupons := [expiredC], orders := [] }

/-- The cash request naming the expired coupon. -/
def reqE : CashReq := { reqA with coupon := some "OLD" }

/-- A cash request whose `products` field is absent. -/
def reqM : CashReq :=
  { products := .missing, shippingAddress := some shipIn, coupon := none }

/-- A two-line cart with a stale discounted total. -/
def cart7 : Cart :=
  { user := "u1",
    cartItems :=
      [{ itemId := "i1", product := "p1", color := none, price := some 10,
         quantity := some 2 },
       { itemId := "i2", product := "p2", color := none, price := some 5,
         quantity := some 1 }],
    totalCartPrice := some 25, totalPriceAfterDiscount := some 20 }

/-- A one-line cart holding two red units of `p1`. -/
def cart8 : Cart :=
  { user := "u1",
    cartItems := [{ itemId := "i1", product := "p1", color := some "red",
                    price := some 10, quantity := some 2 }],
    totalCartPrice := some 20, totalPriceAfterDiscount := none }

/-- A one-line cart for the card-payment scenario. -/
def cart9 : Cart :=
  { user := "u9",
    cartItems := [{ itemId := "i1", product := "p1", color := none,
                    price := some 10, quantity := some 1 }],
    totalCartPrice := some 10, totalPriceAfterDiscount := none }

/-- The checkout session replayed in the idempotency scenario. -/
def sessW : StripeSession :=
  { client_reference_id := "c1", metadata := shipA4, amount_total := 1000,
    customer_email := none }

/-- The state before the payment-confirmation event is processed. -/
def s0W : CardState :=
  { carts := [("c1", cart9)], users := [], orders := [], products := [pW7] }

/-- The order created by processing the payment-confirmation event. -/
def o9W : OrderDoc :=
  { id := "d1", orderId := some "AAA111", user := none,
    cartItems := [{ product := "p1", quantity := some 1, price := some 10,
                    name := none }],
    shippingAddress := shipA4, totalBeforeDiscount := none,
    totalAfterDiscount := none, coupon := none, paymentMethodType := "cash",
    isPaid := true, paidAt := some 50, isDelivered := false, deliveredAt := none,
    deleted := false, deletedAt := none }

/-- The state after the first processing: cart consumed, order persisted,
stock adjusted. -/
def s1W : CardState :=
  { carts := [], users := [], orders := [o9W],
    products := [{ id := "p1", title := "Cake",
                   nums := [("price", 10), ("quantity", -1), ("sold", 1)] }] }

/-! ### Supporting lemmas -/

/-- Comparing `undefined` (or `NaN`) with `<` is always `false` in JS. -/
lemma jLt_undef_left (b : JVal) : jLt none b = false := by
  cases b <;> rfl

/-- Reading `quantity` off a hydrated product is always `undefined`: the
product schema declares no such path. -/
lemma prodNum_quantity (p : StoredProduct) : prodNum p "quantity" = none := by
  have h : productSchemaPaths.contains "quantity" = false := by decide
  unfold prodNum
  rw [h]
  rfl

/-- After `calcTotalCartPrice`, the cached subtotal equals the sum over the
(unchanged) items, and the discounted total is cleared. -/
lemma calcTotal_spec (c : Cart) :
    (calcTotalCartPrice c).totalCartPrice =
      cartItemsSum (calcTotalCartPrice c).cartItems ∧
    (calcTotalCartPrice c).totalPriceAfterDiscount = none := by
  simp [calcTotalCartPrice, cartItemsSum]

/-- When every stored order carrying the requested `_id` is soft-deleted,
the default (hook-filtered) `findById` reports nothing. -/
lemma orderFindById_all_deleted (db : List OrderDoc) (id : String)
    (h : ∀ o ∈ db, o.id = id → o.deleted = true) :
    orderFindById db id = none := by
  unfold orderFindById orderFindOne
  have hq : (preFindHook { conds := { idEq := some id } }).conds =
      { idEq := some id, deletedNe := some true } := rfl
  rw [hq]
  apply List.find?_eq_none.mpr
  intro o ho
  simp only [orderMatches, Bool.and_eq_true, beq_iff_eq, Bool.not_eq_true']
  intro hcontra
  obtain ⟨⟨⟨⟨hid, -⟩, -⟩, hdel⟩, -⟩ := hcontra
  rw [h o ho hid] at hdel
  simp at hdel

/-- When every coupon with the requested name has a bad expiry, the
active-coupon lookup of `applyCoupon` reports nothing. -/
lemma couponFindActive_bad (coupons : List Coupon) (n : String) (now : ℚ)
    (h : ∀ c ∈ coupons, c.name = n → couponBadExpiry c now = true) :
    couponFindActive coupons n now = none := by
  apply List.find?_eq_none.mpr
  intro c hc
  unfold couponMatchesActive
  cases hname : (c.name == n) with
  | false => simp
  | true =>
      have hbad := h c hc (by simpa using hname)
      unfold couponBadExpiry at hbad
      match hexp : c.expire with
      | none => simp
      | some none => simp
      | some (some t) =>
          rw [hexp] at hbad
          simp only [decide_eq_true_eq] at hbad
          simp [not_lt_of_gt hbad, not_lt.mpr (le_of_lt hbad)]

/-- A bad-expiry coupon makes the coupon step of `createCashOrder` fail. -/
lemma cashCouponStep_bad (coupons : List Coupon) (n : String) (total : JVal)
    (now : ℚ)
    (h : ∀ c ∈ coupons, c.name = n → couponBadExpiry c now = true) :
    ∃ e, cashCouponStep coupons n total now = .error e := by
  unfold cashCouponStep
  cases hf : couponFindByName coupons n with
  | none => exact ⟨_, rfl⟩
  | some c =>
      have hmem : c ∈ coupons := List.mem_of_find?_eq_some hf
      have hname : c.name = n := by simpa using List.find?_some hf
      have hbad := h c hmem hname
      unfold couponBadExpiry at hbad
      rcases hexp : c.expire with - | (- | t)
      · exact ⟨{ msg := "Coupon has no expiration date", status := 400 },
          by simp [hexp]⟩
      · exact ⟨{ msg := "Coupon has an invalid expiration date", status := 400 },
          by simp [hexp]⟩
      · rw [hexp] at hbad
        simp only [decide_eq_true_eq] at hbad
        exact ⟨{ msg := "Coupon has expired", status := 400 },
          by simp [hexp, hbad]⟩

/-- Every line `validateLine` accepts has its `total` equal to
`price × quantity`. -/
lemma validateLine_total (store : List StoredProduct) (input : ProdInput)
    (l : PricedLine) (h : validateLine store input = .ok l) :
    l.total = jMul l.price l.quantity := by
  unfold validateLine at h
  rcases hid : input.id with - | pid
  · simp only [hid] at h
    cases h
  · simp only [hid] at h
    cases hq : (jIsNaN (input.quantity.getD (JVal.num 1)) ||
        jLe (input.quantity.getD (JVal.num 1)) (JVal.num 0)) with
    | true =>
        rw [hq] at h
        simp at h
    | false =>
        rw [hq] at h
        simp only [Bool.false_eq_true, if_false] at h
        cases hp : productFindById store pid with
        | none => rw [hp] at h; cases h
        | some product =>
            rw [hp] at h
            cases h
            rfl

/-- The per-line `total = price × quantity` invariant lifted over
`validateProducts`. -/
lemma validateProducts_total (store : List StoredProduct) :
    ∀ (inputs : List ProdInput) (lines : List PricedLine),
      validateProducts store inputs = .ok lines →
      ∀ l ∈ lines, l.total = jMul l.price l.quantity := by
  intro inputs
  induction inputs with
  | nil =>
      intro lines h l hl
      unfold validateProducts at h
      cases h
      cases hl
  | cons input rest ih =>
      intro lines h l hl
      unfold validateProducts at h
      split at h
      · cases h
      · split at h
        · cases h
        · cases h
          rcases List.mem_cons.mp hl with hl | hl
          · subst hl
            exact validateLine_total store input l (by assumption)
          · exact ih _ (by assumption) l hl

/-- The accumulated subtotal equals the price-times-quantity sum over the
order lines built from the same validated lines. -/
lemma linesSubtotal_eq_orderLinesSum (lines : List PricedLine)
    (h : ∀ l ∈ lines, l.total = jMul l.price l.quantity) :
    linesSubtotal lines = orderLinesSum (linesToCartItems lines) := by
  have key : ∀ (ls : List PricedLine) (acc : JVal),
      (∀ l ∈ ls, l.total = jMul l.price l.quantity) →
      ls.foldl (fun a l => jAdd a l.total) acc =
        (linesToCartItems ls).foldl
          (fun a it => jAdd a (jMul it.price it.quantity)) acc := by
    intro ls
    induction ls with
    | nil => intro acc hh; rfl
    | cons l rest ih =>
        intro acc hh
        simp only [linesToCartItems, List.foldl_cons, List.map_cons]
        rw [hh l (List.mem_cons_self l rest)]
        have hrec := ih (jAdd acc (jMul l.price l.quantity))
          (fun x hx => hh x (List.mem_cons_of_mem l hx))
        simpa [linesToCartItems] using hrec
  unfold linesSubtotal orderLinesSum
  exact key lines (JVal.num 0) h

/-- Shape of a successful `Order.create`: the new document is appended and
carries the passed data plus a generated `orderId`. -/
lemma orderCreate_ok (db : List OrderDoc) (gen : ℕ → String) (fid : String)
    (data : OrderData) (o : OrderDoc) (db' : List OrderDoc)
    (h : orderCreate db gen fid data = .ok (o, db')) :
    db' = db ++ [o] ∧ o.cartItems = data.cartItems ∧
    o.totalBeforeDiscount = data.totalBeforeDiscount ∧
    o.totalAfterDiscount = data.totalAfterDiscount ∧ o.orderId.isSome = true := by
  unfold orderCreate at h
  split at h
  · cases h
  · split at h
    · cases h
    · cases h
      exact ⟨rfl, rfl, rfl, rfl, rfl⟩

/-- A value produced by `Math.max(0, ·)` is never negative. -/
lemma jMax0_nonneg (a : JVal) (q : ℚ) (h : jMax0 a = some q) : 0 ≤ q := by
  cases a with
  | none => cases h
  | some x =>
      simp only [jMax0, Option.some.injEq] at h
      rw [← h]
      exact le_max_left 0 x

/-- Success-shape extraction for `createCashOrder`: a successful run passed
every validation step, and the persisted order carries the computed lines
and totals. -/
lemma createCashOrder_ok (st : OrderState) (req : CashReq) (u : Option String)
    (now : ℚ) (gen : ℕ → String) (fid : String) (st' : OrderState) (resp : CashResp)
    (h : createCashOrder st req u now gen fid = (st', .ok resp)) :
    ∃ l ship lines couponOut,
      cashValidate req = .ok (l, ship) ∧
      validateProducts st.products l = .ok lines ∧
      (match req.coupon with
       | some cn => cashCouponStep st.coupons cn (linesSubtotal lines) now
       | none => .ok (linesSubtotal lines, none, none)) = .ok couponOut ∧
      resp.order.cartItems = linesToCartItems lines ∧
      resp.order.totalBeforeDiscount = linesSubtotal lines ∧
      resp.order.totalAfterDiscount = couponOut.1 ∧
      resp.totalBeforeDiscount = linesSubtotal lines ∧
      resp.totalAfterDiscount = couponOut.1 := by
  unfold createCashOrder at h
  split at h
  · cases h
  · next l ship heqv =>
    split at h
    · cases h
    · next lines heqp =>
      split at h
      · next cn heqc =>
        simp only [] at h
        split at h
        · cases h
        · next tA cid csum heqcs =>
          split at h
          · cases h
          · next order orders' heqo =>
            split at h
            · cases h
            · split at h
              · cases h
              · cases h
                obtain ⟨-, hci, hbd, had, -⟩ := orderCreate_ok _ _ _ _ _ _ heqo
                exact ⟨l, ship, lines, (tA, cid, csum), heqv, heqp,
                  heqcs, hci, hbd, had, rfl, rfl⟩
      · next heqc =>
        simp only [] at h
        split at h
        · cases h
        · next order orders' heqo =>
          split at h
          · cases h
          · split at h
            · cases h
            · cases h
              obtain ⟨-, hci, hbd, had, -⟩ := orderCreate_ok _ _ _ _ _ _ heqo
              exact ⟨l, ship, lines, (linesSubtotal lines, none, none), heqv, heqp,
                rfl, hci, hbd, had, rfl, rfl⟩

/-- A successful coupon step computes the clamped percentage formula from
the resolved coupon's discount. -/
lemma cashCouponStep_ok (coupons : List Coupon) (cn : String) (total : JVal)
    (now : ℚ) (out : JVal × Option String × Option CouponSummary) (c : Coupon)
    (h : cashCouponStep coupons cn total now = .ok out)
    (hfound : couponFindByName coupons cn = some c) :
    out.1 = jMax0 (jSub total (jDiv100 (jMul total (JVal.num c.discount)))) := by
  unfold cashCouponStep at h
  rw [hfound] at h
  simp only [] at h
  split at h
  · cases h
  · cases h
  · split at h
    · cases h
    · split at h
      · cases h
      · cases h
        rfl

/-- Filtering out a cart id leaves nothing for a subsequent lookup of that
id to find. -/
lemma filter_out_find?_none (l : List (String × Cart)) (cid : String) :
    (l.filter (fun kv => !(kv.1 == cid))).find? (fun kv => kv.1 == cid) = none := by
  apply List.find?_eq_none.mpr
  intro kv hkv
  have := (List.mem_filter.mp hkv).2
  simpa using this

/-! ### Claim theorems -/

/-- C1: the claim says the pre-create existence check consults the full
order history including soft-deleted orders, so a soft-deleted order's
`orderId` is never reissued.  The code refutes this: the probe
`findOne({orderId})` passes through the soft-delete `pre(/^find/)` hook
(its conditions carry no `includeDeleted`), so a store whose only
occupant is a soft-deleted order with orderId `AAAAAA` is invisible to
the probe, and the generation step reissues `AAAAAA` to the new order. -/
theorem orderId_probe_reissues_soft_deleted_id :
    preValidateOrderId [c1Order] (fun _ => "AAAAAA") = .ok "AAAAAA" ∧
    c1Order.orderId = some "AAAAAA" ∧ c1Order.deleted = true := by
  refine ⟨?_, rfl, rfl⟩
  simp [preValidateOrderId, tryGenerateOrderId, orderFindOneByOrderId,
    orderFindOne, preFindHook, orderMatches, c1Order, List.find?]

/-- C2: the claim says `AddItem` fails with `InsufficientStock` whenever
the requested quantity exceeds the available quantity, and always for a
product with 0 available units.  The code refutes this: the product
schema declares no `quantity` path, so `product.quantity` reads as
`undefined` and the stock guard `product.quantity < quantity` is `false`
for every request — the `InsufficientStock` branch is unreachable, and
adding 3 units of a product stored with `quantity = 0` succeeds and puts
the item in the cart. -/
theorem insufficientStock_unreachable_in_addProductToCart :
    (∀ (store : List StoredProduct) (u : String) (cart? : Option Cart)
       (pid : String) (color : Option String) (q : JVal) (fid : String),
       addProductToCart store u cart? pid color q fid ≠
         .error { msg := "Insufficient stock", status := 400 }) ∧
    addProductToCart c2Store "u1" none "p1" none (JVal.num 3) "i1" =
      .ok { user := "u1",
            cartItems := [{ itemId := "i1", product := "p1", color := none,
                            price := some 10, quantity := some 3 }],
            totalCartPrice := some 30, totalPriceAfterDiscount := none } := by
  constructor
  · intro store u cart? pid color q fid
    unfold addProductToCart
    cases hp : productFindById store pid with
    | none => simp
    | some p =>
        simp only [prodNum_quantity, jLt_undef_left, Bool.false_eq_true, if_false]
        split
        · simp
        · simp
  · simp +decide [addProductToCart, c2Store, productFindById, prodNum,
      productSchemaPaths, calcTotalCartPrice, jAdd, jMul, jLt, jIsInteger,
      JVal.num, List.find?]
    norm_num

/-- C3: the claim says a read without the override never returns a
soft-deleted order (true), and that an admin read with the override flag
returns it with `deleted = true`.  The code refutes the second half:
`findSpecificOrder` forwards the flag via `setOptions` (query options),
while the hook inspects `getQuery().includeDeleted` (the filter
conditions), so the `deleted ≠ true` filter is applied regardless and the
admin override read also answers 404 on a store holding only the deleted
order. -/
theorem override_read_still_hides_soft_deleted :
    findSpecificOrder [c3Order] "o9" "user" false =
      .error { msg := "No order found for this id", status := 404 } ∧
    findSpecificOrder [c3Order] "o9" "admin" true =
      .error { msg := "No order found for this id", status := 404 } ∧
    c3Order.deleted = true := by
  refine ⟨?_, ?_, rfl⟩ <;>
    simp [findSpecificOrder, orderFindByIdWithOpts, orderFindOne,
      setOptionsIncludeDeleted, preFindHook, orderMatches, c3Order, List.find?]

/-- C4: for every cash order that is placed, the persisted subtotal equals
the sum of unit price times quantity over its lines; with no coupon the
total after discount equals the subtotal; with a resolvable coupon the
total equals `max(0, s - s*d/100)` and, whenever it is a number, it is
non-negative; and a coupon whose discount lies outside `[0, 100]` is
rejected with `Invalid discount percentage` before anything is
persisted. -/
theorem cash_order_pricing_correct :
    (∀ st req u now gen fid st' resp,
       createCashOrder st req u now gen fid = (st', .ok resp) →
       resp.order.totalBeforeDiscount = orderLinesSum resp.order.cartItems) ∧
    (∀ st req u now gen fid st' resp,
       createCashOrder st req u now gen fid = (st', .ok resp) →
       req.coupon = none →
       resp.order.totalAfterDiscount = resp.order.totalBeforeDiscount) ∧
    (∀ st req u now gen fid st' resp cn c,
       createCashOrder st req u now gen fid = (st', .ok resp) →
       req.coupon = some cn →
       couponFindByName st.coupons cn = some c →
       resp.order.totalAfterDiscount =
         jMax0 (jSub resp.order.totalBeforeDiscount
           (jDiv100 (jMul resp.order.totalBeforeDiscount (JVal.num c.discount)))) ∧
       ∀ q, resp.order.totalAfterDiscount = some q → 0 ≤ q) ∧
    (∀ st req u now gen fid l ship lines cn c t,
       cashValidate req = .ok (l, ship) →
       validateProducts st.products l = .ok lines →
       req.coupon = some cn →
       couponFindByName st.coupons cn = some c →
       c.expire = some (some t) → ¬(t < now) →
       (c.discount < 0 ∨ 100 < c.discount) →
       createCashOrder st req u now gen fid =
         (st, .error { msg := "Invalid discount percentage", status := 400 })) := by
  refine ⟨?_, ?_, ?_, ?_⟩
  · intro st req u now gen fid st' resp h
    obtain ⟨l, ship, lines, couponOut, -, hvp, -, hci, hbd, -, -, -⟩ :=
      createCashOrder_ok st req u now gen fid st' resp h
    rw [hbd, hci]
    exact linesSubtotal_eq_orderLinesSum lines
      (validateProducts_total st.products l lines hvp)
  · intro st req u now gen fid st' resp h hnone
    obtain ⟨l, ship, lines, couponOut, -, -, hcs, -, hbd, had, -, -⟩ :=
      createCashOrder_ok st req u now gen fid st' resp h
    rw [hnone] at hcs
    cases hcs
    rw [had, hbd]
  · intro st req u now gen fid st' resp cn c h hsome hfound
    obtain ⟨l, ship, lines, couponOut, -, -, hcs, -, hbd, had, -, -⟩ :=
      createCashOrder_ok st req u now gen fid st' resp h
    rw [hsome] at hcs
    have hout := cashCouponStep_ok st.coupons cn (linesSubtotal lines) now
      couponOut c hcs hfound
    constructor
    · rw [had, hbd, hout]
    · intro q hq
      rw [had, hout] at hq
      exact jMax0_nonneg _ q hq
  · intro st req u now gen fid l ship lines cn c t hval hvp hcn hfound hexp hnot hd
    have hstep : cashCouponStep st.coupons cn (linesSubtotal lines) now =
        .error { msg := "Invalid discount percentage", status := 400 } := by
      unfold cashCouponStep
      rw [hfound]
      have hcond : (decide (c.discount < 0) || decide (c.discount > 100)) = true := by
        rcases hd with hd | hd <;> simp [hd]
      simp only [hexp, if_neg hnot, hcond, if_true]
    unfold createCashOrder
    rw [hval]
    simp only []
    rw [hvp]
    simp only []
    rw [hcn]
    simp only [hstep]

/-- C4 witness: the concrete scenarios — two units at price 10 with no
coupon give totals 20/20; with the 20 percent coupon they give 20/16
(the spec's own scenario); the coupon with discount 150 is rejected. -/
theorem cash_order_pricing_correct_witness :
    (respA.order.totalBeforeDiscount = orderLinesSum respA.order.cartItems ∧
     respA.order.totalAfterDiscount = respA.order.totalBeforeDiscount) ∧
    (respC.order.totalAfterDiscount =
       jMax0 (jSub respC.order.totalBeforeDiscount
         (jDiv100 (jMul respC.order.totalBeforeDiscount (JVal.num valid20.discount)))) ∧
     ∀ q, respC.order.totalAfterDiscount = some q → 0 ≤ q) ∧
    createCashOrder st4 reqD none 50 genW "d1" =
      (st4, .error { msg := "Invalid discount percentage", status := 400 }) := by
  have hA : createCashOrder st4 reqA none 50 genW "d1" = (stA, .ok respA) := by
    simp +decide [createCashOrder, cashValidate, validateProducts, validateLine,
      strTruthy, reqA, st4, stA, respA, orderA, shipA4, pW, valid20, bigDisc, genW,
      shipIn, productFindById, prodNum, productSchemaPaths, jIsNaN, jLe, jMul, jAdd,
      JVal.num, linesToCartItems, linesSubtotal, orderCreate, preValidateOrderId,
      tryGenerateOrderId, orderFindOneByOrderId, orderFindOne, preFindHook,
      orderMatches, cashBulkSold, cashBulkOps, storedInc, List.find?]
    norm_num
  have hC : createCashOrder st4 reqC none 50 genW "d1" = (stC, .ok respC) := by
    simp +decide [createCashOrder, cashValidate, validateProducts, validateLine,
      strTruthy, reqA, reqC, st4, stC, respC, orderC, shipA4, pW, valid20, bigDisc,
      genW, shipIn, productFindById, prodNum, productSchemaPaths, jIsNaN, jLe, jMul,
      jAdd, jSub, jMax0, jDiv100, JVal.num, linesToCartItems, linesSubtotal,
      cashCouponStep, couponFindByName, orderCreate, preValidateOrderId,
      tryGenerateOrderId, orderFindOneByOrderId, orderFindOne, preFindHook,
      orderMatches, cashBulkSold, cashBulkOps, storedInc, List.find?]
    norm_num
  refine ⟨⟨?_, ?_⟩, ?_, ?_⟩
  · exact cash_order_pricing_correct.1 st4 reqA none 50 genW "d1" stA respA hA
  · exact cash_order_pricing_correct.2.1 st4 reqA none 50 genW "d1" stA respA hA rfl
  · exact cash_order_pricing_correct.2.2.1 st4 reqC none 50 genW "d1" stC respC
      "SAVE20" valid20 hC rfl (by simp [couponFindByName, st4, valid20, bigDisc,
        List.find?])
  · exact cash_order_pricing_correct.2.2.2 st4 reqD none 50 genW "d1"
      [{ id := some "p1", quantity := some (some 2), color := none }] shipIn
      [{ product := "p1", title := "Choco Cake", color := "N/A", price := some 10,
         quantity := some 2, total := some 20 }]
      "MEGA" bigDisc 100
      (by simp +decide [cashValidate, reqD, reqA, shipIn, strTruthy])
      (by simp +decide [validateProducts, validateLine, st4, pW, productFindById,
          prodNum, productSchemaPaths, jIsNaN, jLe, jMul, JVal.num, List.find?]
          norm_num)
      rfl
      (by simp [couponFindByName, st4, valid20, bigDisc, List.find?])
      rfl
      (by norm_num)
      (by right; norm_num [bigDisc])

/-- C5: applying a coupon whose expiry is absent, malformed or in the past
always fails — the cart handler answers `Coupon is invalid or expired`
and leaves the stored cart untouched — and in cash-order placement a
bad-expiry coupon makes the whole operation fail with the order store
untouched (nothing is persisted). -/
theorem expired_coupon_always_rejected :
    (∀ (coupons : List Coupon) (cart? : Option Cart) (n : String) (now : ℚ),
       (∀ c ∈ coupons, c.name = n → couponBadExpiry c now = true) →
       applyCouponHandler coupons cart? n now =
         (cart?, .error { msg := "Coupon is invalid or expired", status := 400 })) ∧
    (∀ (st : OrderState) (req : CashReq) (u : Option String) (now : ℚ)
       (gen : ℕ → String) (fid : String) (n : String),
       req.coupon = some n →
       (∀ c ∈ st.coupons, c.name = n → couponBadExpiry c now = true) →
       (createCashOrder st req u now gen fid).1 = st ∧
       ∃ e, (createCashOrder st req u now gen fid).2 = .error e) := by
  constructor
  · intro coupons cart? n now h
    simp [applyCouponHandler, applyCoupon, couponFindActive_bad coupons n now h]
  · intro st req u now gen fid n hc h
    unfold createCashOrder
    split
    · refine ⟨rfl, ?_⟩
      exact ⟨_, rfl⟩
    · split
      · refine ⟨rfl, ?_⟩
        exact ⟨_, rfl⟩
      · next lines _ =>
          obtain ⟨e, he⟩ := cashCouponStep_bad st.coupons n (linesSubtotal lines) now h
          rw [hc]
          simp only [he]
          exact ⟨trivial, e, rfl⟩

/-- C5 witness: the coupon `OLD` expired at time 5; at time 50 the cart
handler rejects it leaving the cart untouched, and the cash order naming
it fails with the state unchanged. -/
theorem expired_coupon_always_rejected_witness :
    applyCouponHandler [expiredC] (some cart7) "OLD" 50 =
      (some cart7, .error { msg := "Coupon is invalid or expired", status := 400 }) ∧
    (createCashOrder st5 reqE none 50 genW "d1").1 = st5 ∧
    ∃ e, (createCashOrder st5 reqE none 50 genW "d1").2 = .error e := by
  have hbad : ∀ c ∈ [expiredC], c.name = "OLD" → couponBadExpiry c 50 = true := by
    intro c hc hn
    rw [List.mem_singleton] at hc
    subst hc
    simp [couponBadExpiry, expiredC]
    norm_num
  refine ⟨?_, ?_⟩
  · exact expired_coupon_always_rejected.1 [expiredC] (some cart7) "OLD" 50 hbad
  · exact expired_coupon_always_rejected.2 st5 reqE none 50 genW "d1" "OLD"
      rfl (by simpa [st5] using hbad)

/-- C6: a cash-order request whose `products` field is absent, not an
array, or an empty array is rejected with status 400 and the message the
handler raises, and the whole state — the order store in particular — is
returned unchanged. -/
theorem empty_products_rejected :
    ∀ (st : OrderState) (req : CashReq) (u : Option String) (now : ℚ)
      (gen : ℕ → String) (fid : String),
      (req.products = .missing ∨ req.products = .nonArray ∨
        req.products = .arr []) →
      createCashOrder st req u now gen fid =
        (st, .error { msg := "Products array is required and cannot be empty",
                      status := 400 }) := by
  intro st req u now gen fid h
  rcases h with h | h | h <;> simp [createCashOrder, cashValidate, h]

/-- C6 witness: the concrete request with an absent `products` field is
rejected and the state of the expired-coupon scenario store is unchanged. -/
theorem empty_products_rejected_witness :
    createCashOrder st4 reqM none 0 genW "d1" =
      (st4, .error { msg := "Products array is required and cannot be empty",
                     status := 400 }) := by
  exact empty_products_rejected st4 reqM none 0 genW "d1" (Or.inl rfl)

/-- C7: after every successful cart mutation — add, remove, or quantity
update — the saved cart's cached `totalCartPrice` equals the sum of
`quantity × price` over its current items, and the cached
`totalPriceAfterDiscount` is cleared (set to `undefined`). -/
theorem cart_totals_invariant_after_mutations :
    (∀ (store : List StoredProduct) (u : String) (cart? : Option Cart)
       (pid : String) (color : Option String) (q : JVal) (fid : String) (c' : Cart),
       addProductToCart store u cart? pid color q fid = .ok c' →
       c'.totalCartPrice = cartItemsSum c'.cartItems ∧
       c'.totalPriceAfterDiscount = none) ∧
    (∀ (cart? : Option Cart) (itemId : String) (c' : Cart),
       removeSpecificCartItem cart? itemId = .ok c' →
       c'.totalCartPrice = cartItemsSum c'.cartItems ∧
       c'.totalPriceAfterDiscount = none) ∧
    (∀ (store : List StoredProduct) (cart? : Option Cart) (itemId : String)
       (q : JVal) (c' : Cart),
       updateCartItemQuantity store cart? itemId q = .ok c' →
       c'.totalCartPrice = cartItemsSum c'.cartItems ∧
       c'.totalPriceAfterDiscount = none) := by
  refine ⟨?_, ?_, ?_⟩
  · intro store u cart? pid color q fid c' h
    unfold addProductToCart at h
    split at h
    · cases h
    · split at h
      · cases h
      · split at h
        · cases h
        · cases h
          exact calcTotal_spec _
  · intro cart? itemId c' h
    unfold removeSpecificCartItem at h
    split at h
    · cases h
    · cases h
      exact calcTotal_spec _
  · intro store cart? itemId q c' h
    unfold updateCartItemQuantity at h
    split at h
    · cases h
    · split at h
      · cases h
      · split at h
        · split at h
          · cases h
          · split at h
            · cases h
            · cases h
              exact calcTotal_spec _
        · cases h

/-- C7 witness: one concrete run of each mutation, each yielding a cart
whose cached subtotal matches its items and whose discount cache is
cleared. -/
theorem cart_totals_invariant_after_mutations_witness :
    (addProductToCart [pW7] "u1" none "p1" none (JVal.num 1) "i1" =
       .ok { user := "u1",
             cartItems := [{ itemId := "i1", product := "p1", color := none,
                             price := some 10, quantity := some 1 }],
             totalCartPrice := some 10, totalPriceAfterDiscount := none } ∧
     ({ user := "u1",
        cartItems := [{ itemId := "i1", product := "p1", color := none,
                        price := some 10, quantity := some 1 }],
        totalCartPrice := some 10, totalPriceAfterDiscount := none } : Cart).totalCartPrice =
       cartItemsSum [{ itemId := "i1", product := "p1", color := none,
                       price := some 10, quantity := some 1 }]) ∧
    (removeSpecificCartItem (some cart7) "i1" =
       .ok { user := "u1",
             cartItems := [{ itemId := "i2", product := "p2", color := none,
                             price := some 5, quantity := some 1 }],
             totalCartPrice := some 5, totalPriceAfterDiscount := none }) ∧
    (updateCartItemQuantity [pW7, pX7] (some cart7) "i2" (JVal.num 4) =
       .ok { user := "u1",
             cartItems :=
               [{ itemId := "i1", product := "p1", color := none, price := some 10,
                  quantity := some 2 },
                { itemId := "i2", product := "p2", color := none, price := some 5,
                  quantity := some 4 }],
             totalCartPrice := some 40, totalPriceAfterDiscount := none }) := by
  have hAdd : addProductToCart [pW7] "u1" none "p1" none (JVal.num 1) "i1" =
      .ok { user := "u1",
            cartItems := [{ itemId := "i1", product := "p1", color := none,
                            price := some 10, quantity := some 1 }],
            totalCartPrice := some 10, totalPriceAfterDiscount := none } := by
    simp +decide [addProductToCart, pW7, productFindById, prodNum,
      productSchemaPaths, calcTotalCartPrice, jAdd, jMul, jLt, jIsInteger,
      JVal.num, List.find?]
  have hRem : removeSpecificCartItem (some cart7) "i1" =
      .ok { user := "u1",
            cartItems := [{ itemId := "i2", product := "p2", color := none,
                            price := some 5, quantity := some 1 }],
            totalCartPrice := some 5, totalPriceAfterDiscount := none } := by
    simp +decide [removeSpecificCartItem, cart7, calcTotalCartPrice, jAdd, jMul,
      JVal.num]
  have hUpd : updateCartItemQuantity [pW7, pX7] (some cart7) "i2" (JVal.num 4) =
      .ok { user := "u1",
            cartItems :=
              [{ itemId := "i1", product := "p1", color := none, price := some 10,
                 quantity := some 2 },
               { itemId := "i2", product := "p2", color := none, price := some 5,
                 quantity := some 4 }],
            totalCartPrice := some 40, totalPriceAfterDiscount := none } := by
    simp +decide [updateCartItemQuantity, cart7, pW7, pX7, productFindById,
      prodNum, productSchemaPaths, calcTotalCartPrice, jAdd, jMul, jLt,
      jIsInteger, JVal.num, List.find?, List.findIdx, List.findIdx.go,
      List.modify]
    norm_num
  refine ⟨⟨hAdd, ?_⟩, hRem, hUpd⟩
  exact (cart_totals_invariant_after_mutations.1 [pW7] "u1" none "p1" none
    (JVal.num 1) "i1" _ hAdd).1

/-- C8: when a cart already holds a line with the same (product, color)
pair, `AddItem` overwrites that line's quantity with the given value —
last-write-wins, not additive — and for any other pair the item is
appended as a new line carrying a fresh price snapshot. -/
theorem addToCart_last_write_wins (store : List StoredProduct) (u : String)
    (cart : Cart) (pid : String) (color : Option String) (q : JVal)
    (fid : String) (p : StoredProduct)
    (hp : productFindById store pid = some p)
    (hq : (!jIsInteger q || jLt q (JVal.num 1)) = false) :
    (∀ i, cart.cartItems.findIdx?
        (fun item => item.product == pid && item.color == color) = some i →
      ∃ c', addProductToCart store u (some cart) pid color q fid = .ok c' ∧
        c'.cartItems =
          cart.cartItems.modify (fun item => { item with quantity := q }) i) ∧
    (cart.cartItems.findIdx?
        (fun item => item.product == pid && item.color == color) = none →
      ∃ c', addProductToCart store u (some cart) pid color q fid = .ok c' ∧
        c'.cartItems =
          cart.cartItems ++ [{ itemId := fid, product := pid, color := color,
                               price := prodNum p "price", quantity := q }]) := by
  constructor
  · intro i hi
    refine ⟨calcTotalCartPrice { cart with cartItems :=
      (cart.cartItems.modify (fun item => { item with quantity := q }) i) }, ?_, ?_⟩
    · unfold addProductToCart
      rw [hp]
      simp only [prodNum_quantity, jLt_undef_left, Bool.false_eq_true, if_false,
        hq, hi]
    · simp [calcTotalCartPrice]
  · intro hi
    refine ⟨calcTotalCartPrice { cart with cartItems :=
      (cart.cartItems ++ [{ itemId := fid, product := pid, color := color,
                            price := prodNum p "price", quantity := q }]) }, ?_, ?_⟩
    · unfold addProductToCart
      rw [hp]
      simp only [prodNum_quantity, jLt_undef_left, Bool.false_eq_true, if_false,
        hq, hi]
    · simp [calcTotalCartPrice]

/-- C8 witness: re-adding (`p1`, red) with quantity 5 overwrites the
existing line's quantity at index 0; adding (`p1`, blue) appends a new
line. -/
theorem addToCart_last_write_wins_witness :
    (∃ c', addProductToCart [pW7] "u1" (some cart8) "p1" (some "red")
        (JVal.num 5) "i9" = .ok c' ∧
      c'.cartItems =
        cart8.cartItems.modify (fun item => { item with quantity := JVal.num 5 }) 0) ∧
    (∃ c', addProductToCart [pW7] "u1" (some cart8) "p1" (some "blue")
        (JVal.num 1) "i9" = .ok c' ∧
      c'.cartItems =
        cart8.cartItems ++ [{ itemId := "i9", product := "p1",
                              color := some "blue", price := prodNum pW7 "price",
                              quantity := JVal.num 1 }]) := by
  have hp : productFindById [pW7] "p1" = some pW7 := by
    simp [productFindById, pW7, List.find?]
  have hq5 : (!jIsInteger (JVal.num 5) || jLt (JVal.num 5) (JVal.num 1)) = false := by
    simp [jIsInteger, jLt, JVal.num]
  have hq1 : (!jIsInteger (JVal.num 1) || jLt (JVal.num 1) (JVal.num 1)) = false := by
    simp [jIsInteger, jLt, JVal.num]
  constructor
  · exact (addToCart_last_write_wins [pW7] "u1" cart8 "p1" (some "red")
      (JVal.num 5) "i9" pW7 hp hq5).1 0
      (by simp +decide [cart8, List.findIdx?])
  · exact (addToCart_last_write_wins [pW7] "u1" cart8 "p1" (some "blue")
      (JVal.num 1) "i9" pW7 hp hq1).2
      (by simp +decide [cart8, List.findIdx?])

/-- C9: a payment-confirmation event that is processed successfully
creates exactly one order — the cart named by the correlation id is
consumed, so replaying the very same event finds no cart, changes
nothing, and creates no second order. -/
theorem payment_replay_creates_single_order (s0 : CardState)
    (sess : StripeSession) (now now2 : ℚ) (gen gen2 : ℕ → String)
    (fid fid2 : String) (s1 : CardState) (o : OrderDoc)
    (h : createCardOrder s0 sess now gen fid = (s1, .ok o)) :
    createCardOrder s1 sess now2 gen2 fid2 =
      (s1, .error { msg := "Cart not found with this id", status := 500 }) ∧
    s1.orders.length = s0.orders.length + 1 := by
  unfold createCardOrder at h
  simp only [] at h
  cases hf : List.find? (fun kv => kv.1 == sess.client_reference_id) s0.carts with
  | none =>
      rw [hf] at h
      simp at h
  | some kv =>
      obtain ⟨cid0, cart⟩ := kv
      rw [hf] at h
      simp only [] at h
      split at h
      · injection h with h1 h2
        cases h2
      · next order orders' heqo =>
        split at h
        · injection h with h1 h2
          cases h2
        · next products' heqb =>
          injection h with h1 h2
          injection h2 with h2
          subst h1
          subst h2
          obtain ⟨hdb, -, -, -, -⟩ := orderCreate_ok _ _ _ _ _ _ heqo
          constructor
          · unfold createCardOrder
            simp only []
            rw [filter_out_find?_none s0.carts sess.client_reference_id]
          · simp [hdb]

/-- C9 witness: processing the concrete session against the one-cart state
succeeds; the replay fails with `Cart not found` leaving the state as it
is, and exactly one order exists. -/
theorem payment_replay_creates_single_order_witness :
    createCardOrder s1W sessW 60 genW "d2" =
      (s1W, .error { msg := "Cart not found with this id", status := 500 }) ∧
    s1W.orders.length = s0W.orders.length + 1 := by
  have h : createCardOrder s0W sessW 50 genW "d1" = (s1W, .ok o9W) := by
    simp +decide [createCardOrder, s0W, s1W, sessW, cart9, pW7, o9W, shipA4, genW,
      cartItemToOrderLine, orderCreate, preValidateOrderId, tryGenerateOrderId,
      orderFindOneByOrderId, orderFindOne, preFindHook, orderMatches,
      cardBulkStock, cardBulkOps, storedInc, List.find?]
  exact payment_replay_creates_single_order s0W sessW 50 60 genW genW "d1" "d2"
    s1W o9W h

/-- C10: invoking `SoftDelete`, `MarkPaid`, or `MarkDelivered` on an
already-soft-deleted order answers 404 — the lookups go through the
default deleted-excluding read filter — and the order store is returned
unchanged. -/
theorem transitions_on_deleted_order_not_found (db : List OrderDoc)
    (o : OrderDoc) (now1 now2 now3 : ℚ)
    (_hmem : o ∈ db) (_hdel : o.deleted = true)
    (huniq : ∀ o' ∈ db, o'.id = o.id → o'.deleted = true) :
    softDeleteOrder db o.id now1 =
      (db, .error { msg := "There is no such order with this id", status := 404 }) ∧
    updateOrderToPaid db o.id now2 =
      (db, .error { msg := "There is no such order with this id", status := 404 }) ∧
    updateOrderToDelivered db o.id now3 =
      (db, .error { msg := "There is no such order with this id", status := 404 }) := by
  have hnone := orderFindById_all_deleted db o.id huniq
  refine ⟨?_, ?_, ?_⟩ <;>
    simp [softDeleteOrder, updateOrderToPaid, updateOrderToDelivered, hnone]

/-- C10 witness: the store holding only the soft-deleted order `c10Order`
rejects all three transitions on it with 404 and stays unchanged. -/
theorem transitions_on_deleted_order_not_found_witness :
    softDeleteOrder [c10Order] c10Order.id 6 =
      ([c10Order],
       .error { msg := "There is no such order with this id", status := 404 }) ∧
    updateOrderToPaid [c10Order] c10Order.id 7 =
      ([c10Order],
       .error { msg := "There is no such order with this id", status := 404 }) ∧
    updateOrderToDelivered [c10Order] c10Order.id 8 =
      ([c10Order],
       .error { msg := "There is no such order with this id", status := 404 }) := by
  exact transitions_on_deleted_order_not_found [c10Order] c10Order 6 7 8
    (List.mem_singleton.mpr rfl) rfl
    (by intro o' ho' h
        rw [List.mem_singleton] at ho'
        subst ho'
        rfl)
